import Mathlib

/-!
Shallow embedding of the video-generation backend (`backend/app.py`).

The embedding models the asynchronous job lifecycle:
  * `VideoGeneration` mirrors the pydantic record (lines 59-67); `createdAt`
    is modelled as a `Nat` timestamp (the code stores a fixed-format ISO-8601
    string whose lexicographic order coincides with chronological order).
  * `Env` is the oracle for everything outside the process: whether a
    Hugging Face token is configured, which files exist, the response of the
    remote endpoint on each attempt, and whether file writes succeed.
  * `fetchLoop` is the retry loop of `process_video_generation`
    (lines 178-259); `controllerBody` is the body of the surrounding `try`
    (lines 140-259) together with `mock_video_generation` (lines 265-307).
  * `controllerUpdates` lists the mutations the background task applies to
    the job's record in the store, in program order, and `jobTrace` the
    successive observable states of that record.
-/

namespace Vidooo

/-- Job status strings used by the code (line 66). -/
inductive Status where
  | pending
  | processing
  | completed
  | failed
deriving DecidableEq

/-- The `VideoGeneration` pydantic model (lines 59-67). -/
structure VideoGeneration where
  id : String
  characterImageUrl : String
  script : String
  duration : Int
  quality : String
  videoUrl : Option String
  status : Status
  createdAt : Nat
deriving DecidableEq

/-- A JSON error payload as far as the code inspects it: only the optional
`estimated_time` number is ever read (line 195). -/
structure ErrorPayload where
  estimated_time : Option ℚ
deriving DecidableEq

/-- An HTTP response as the code observes it: status code, content type,
body bytes, and the result of `response.json()` (`none` = JSONDecodeError). -/
structure HttpResponse where
  statusCode : Nat
  contentType : String
  content : List Nat
  json : Option ErrorPayload
deriving DecidableEq

/-- One call to `requests.post` either raises a `RequestException` or
yields a response. -/
inductive AttemptResult where
  | networkError
  | response (r : HttpResponse)
deriving DecidableEq

/-- The environment: external state the background task interacts with. -/
structure Env where
  hfToken : Bool
  fileExists : String → Bool
  attempts : Nat → AttemptResult
  writeOk : Bool

/-- `max_retries = 3` (line 178). -/
def maxRetries : Nat := 3

/-- `retry_delay = 20` (line 179). -/
def initialRetryDelay : ℚ := 20

/-- Python's `str.startswith`, as a character-level test (equivalent to
`String.startsWith`, stated on the character list so that it evaluates). -/
def strStartsWith (s p : String) : Bool :=
  List.isPrefixOf p.data s.data

/-- Content-type acceptance check (line 220). -/
def contentTypeIsVideo (ct : String) : Bool :=
  strStartsWith ct "video/" || strStartsWith ct "application/octet-stream"

/-- Sleep performed on a 503 response (lines 193-200): the parsed payload's
`estimated_time` when present, else the current `retry_delay`. -/
def loadingSleep (j : Option ErrorPayload) (retryDelay : ℚ) : ℚ :=
  match j with
  | some p => p.estimated_time.getD retryDelay
  | none => retryDelay

/-- Exceptions that terminate the retry loop (they are not
`requests.exceptions.RequestException`, so the inner handler at line 253
does not catch them, except for `networkExhausted` which is the re-raise at
line 259). -/
inductive FetchError where
  | apiError (statusCode : Nat)
  | nonVideoJson
  | truncated (length : Nat)
  | networkExhausted
deriving DecidableEq

/-- Result of running the retry loop: number of `requests.post` calls made,
the list of `time.sleep` durations in order, and the outcome. -/
structure FetchResult where
  attemptsMade : Nat
  sleeps : List ℚ
  outcome : Except FetchError (List Nat)

/-- The retry loop `for attempt in range(max_retries)` (lines 181-259).
`remaining + 1` is the number of loop iterations still available, `idx` the
current value of `attempt`; the Python guard `attempt < max_retries - 1` is
`0 < remaining`.  The fuel-0 case is unreachable from `fetchVideo`: on the
last iteration every branch returns or raises. -/
def fetchLoop (env : Env) : Nat → Nat → ℚ → Nat → List ℚ → FetchResult
  | 0, _, _, made, sleeps => ⟨made, sleeps, Except.error FetchError.networkExhausted⟩
  | remaining + 1, idx, delay, made, sleeps =>
    match env.attempts idx with
    | AttemptResult.networkError =>
        -- lines 253-259: sleep and retry while attempts remain, else re-raise
        if 0 < remaining then
          fetchLoop env remaining (idx + 1) (delay * 1.5) (made + 1) (sleeps ++ [delay])
        else
          ⟨made + 1, sleeps, Except.error FetchError.networkExhausted⟩
    | AttemptResult.response r =>
        if r.statusCode = 503 ∧ 0 < remaining then
          -- lines 191-204: sleep, scale the delay by 1.5, `continue`
          fetchLoop env remaining (idx + 1) (delay * 1.5) (made + 1)
            (sleeps ++ [loadingSleep r.json delay])
        else
          -- a 503 on the final attempt still sleeps (lines 193-200) and then
          -- falls through to the status-code check at line 206
          let sleeps1 :=
            if r.statusCode = 503 then sleeps ++ [loadingSleep r.json delay] else sleeps
          if r.statusCode ≠ 200 then
            -- lines 206-214: raise Exception("API request failed: ...")
            ⟨made + 1, sleeps1, Except.error (FetchError.apiError r.statusCode)⟩
          else if contentTypeIsVideo r.contentType = false then
            -- lines 220-231
            match r.json with
            | some _ => ⟨made + 1, sleeps1, Except.error FetchError.nonVideoJson⟩
            | none =>
                if r.content.length < 1000 then
                  ⟨made + 1, sleeps1, Except.error (FetchError.truncated r.content.length)⟩
                else
                  ⟨made + 1, sleeps1, Except.ok r.content⟩
          else
            ⟨made + 1, sleeps1, Except.ok r.content⟩

/-- Entry into the retry loop (line 181). -/
def fetchVideo (env : Env) : FetchResult :=
  fetchLoop env maxRetries 0 initialRetryDelay 0 []

/-- `image_path = generation["characterImageUrl"].replace("/uploads/", "uploads/")`
(line 153). -/
def imagePath (url : String) : String :=
  url.replace "/uploads/" "uploads/"

/-- `f"/videos/video_{generation_id}.mp4"` (lines 234, 247). -/
def videoUrlFor (id : String) : String :=
  "/videos/video_" ++ id ++ ".mp4"

/-- The fixed placeholder MP4 bytes written by `mock_video_generation`
(lines 277-293). -/
def mp4Data : List Nat :=
  [0x00, 0x00, 0x00, 0x20, 0x66, 0x74, 0x79, 0x70, 0x69, 0x73, 0x6F, 0x6D,
   0x00, 0x00, 0x02, 0x00, 0x69, 0x73, 0x6F, 0x6D, 0x69, 0x73, 0x6F, 0x32,
   0x61, 0x76, 0x63, 0x31, 0x6D, 0x70, 0x34, 0x31,
   0x00, 0x00, 0x00, 0x08, 0x66, 0x72, 0x65, 0x65,
   0x00, 0x00, 0x00, 0x10, 0x6D, 0x64, 0x61, 0x74,
   0x00, 0x00, 0x00, 0x00, 0x00, 0x00, 0x00, 0x00,
   0x00, 0x00, 0x00, 0x28, 0x6D, 0x6F, 0x6F, 0x76,
   0x00, 0x00, 0x00, 0x6C, 0x6D, 0x76, 0x68, 0x64,
   0x00, 0x00, 0x00, 0x00, 0x00, 0x00, 0x00, 0x00,
   0x00, 0x00, 0x00, 0x00, 0x00, 0x00, 0x03, 0xE8,
   0x00, 0x00, 0x00, 0x00, 0x00, 0x01, 0x00, 0x00]

/-- Exceptions caught by the outer handler of `process_video_generation`
(line 261) or by `mock_video_generation`'s own handler (line 305). -/
inductive CtrlError where
  | missingImage
  | fetchFailed (e : FetchError)
  | writeFailed
  | emptyArtifact
  | mockWriteFailed
deriving DecidableEq

/-- Result of one background run: requests made, sleeps performed, and
either the produced `(videoUrl, artifact bytes)` or the exception that the
handler turned into `status = "failed"`. -/
structure RunReport where
  attemptsMade : Nat
  sleeps : List ℚ
  outcome : Except CtrlError (String × List Nat)

/-- `mock_video_generation` (lines 265-307): sleep 10, write the fixed
placeholder bytes; its own handler turns a write failure into
`status = "failed"`. -/
def mockRun (env : Env) (id : String) : RunReport :=
  if env.writeOk then
    ⟨0, [10], Except.ok (videoUrlFor id, mp4Data)⟩
  else
    ⟨0, [10], Except.error CtrlError.mockWriteFailed⟩

/-- The body of the `try` in `process_video_generation` after the status has
been set to processing (lines 144-259): delegate to the mock when no token
is configured (lines 147-150), check the image file (lines 153-155), run the
retry loop, write the artifact and verify it is non-empty (lines 233-242). -/
def controllerBody (env : Env) (g : VideoGeneration) : RunReport :=
  if env.hfToken = false then
    mockRun env g.id
  else if env.fileExists (imagePath g.characterImageUrl) = false then
    ⟨0, [], Except.error CtrlError.missingImage⟩
  else
    let f := fetchVideo env
    match f.outcome with
    | Except.error e => ⟨f.attemptsMade, f.sleeps, Except.error (CtrlError.fetchFailed e)⟩
    | Except.ok content =>
        if env.writeOk = false then
          ⟨f.attemptsMade, f.sleeps, Except.error CtrlError.writeFailed⟩
        else if content.length = 0 then
          ⟨f.attemptsMade, f.sleeps, Except.error CtrlError.emptyArtifact⟩
        else
          ⟨f.attemptsMade, f.sleeps, Except.ok (videoUrlFor g.id, content)⟩

/-- Observable fields of a job record that the background task mutates. -/
structure JobView where
  status : Status
  videoUrl : Option String
deriving DecidableEq

/-- A single store mutation performed by the background task:
`generations[id]["status"] = s` or the `update({status, videoUrl})` call. -/
inductive StoreUpdate where
  | setStatus (s : Status)
  | setCompleted (url : String)
deriving DecidableEq

def applyUpdate (v : JobView) : StoreUpdate → JobView
  | StoreUpdate.setStatus s => ⟨s, v.videoUrl⟩
  | StoreUpdate.setCompleted url => ⟨Status.completed, some url⟩

/-- The mutations `process_video_generation` applies to the job's record, in
program order: `status = "processing"` first (line 142), then exactly one of
the completed-update (lines 245-248 or 298-301) or `status = "failed"`
(line 263 or 307). -/
def controllerUpdates (env : Env) (g : VideoGeneration) : List StoreUpdate :=
  StoreUpdate.setStatus Status.processing ::
    match (controllerBody env g).outcome with
    | Except.ok p => [StoreUpdate.setCompleted p.1]
    | Except.error _ => [StoreUpdate.setStatus Status.failed]

/-- State of the record at creation (lines 103-111). -/
def initialView : JobView := ⟨Status.pending, none⟩

/-- The successive observable states of one job's record: at creation and
after each mutation of the background task. -/
def jobTrace (env : Env) (g : VideoGeneration) : List JobView :=
  (controllerUpdates env g).scanl applyUpdate initialView

/-- The transitions the spec permits. -/
def allowedTransition : Status → Status → Bool
  | Status.pending, Status.processing => true
  | Status.processing, Status.completed => true
  | Status.processing, Status.failed => true
  | _, _ => false

def isTerminal : Status → Bool
  | Status.completed => true
  | Status.failed => true
  | _ => false

/-- `"parameters": json.dumps({"num_frames": min(duration * 8, 25)})`
(lines 171-175). -/
structure RequestParameters where
  num_frames : Int
deriving DecidableEq

def requestParameters (g : VideoGeneration) : RequestParameters :=
  ⟨min (g.duration * 8) 25⟩

/-- Spec constant: `framesPerSecondAssumption = 8`. -/
def framesPerSecondAssumption : Int := 8

/-- Spec constant: `maxFrames = 25`. -/
def maxFrames : Int := 25

/-- The `VideoGenerationRequest` pydantic model (lines 53-57). -/
structure VideoGenerationRequest where
  characterImageUrl : String
  script : String
  duration : Int
  quality : String
deriving DecidableEq

/-- A request body before validation: which of the four fields are present. -/
structure RawRequestBody where
  characterImageUrl : Option String
  script : Option String
  duration : Option Int
  quality : Option String
deriving DecidableEq

/-- Pydantic validation of the body of `POST /generate-video` against
`VideoGenerationRequest` (lines 53-57): fields without a declared default
are required (validation fails when absent, and FastAPI then rejects the
request before the handler runs); `duration` and `quality` fall back to
their declared defaults `5` and `"768"`. -/
def parseRequestBody (r : RawRequestBody) : Option VideoGenerationRequest :=
  match r.characterImageUrl, r.script with
  | some url, some s => some ⟨url, s, r.duration.getD 5, r.quality.getD "768"⟩
  | _, _ => none

/-- `generate_video` (lines 97-118): on a valid body, create the pending
record and append it to the store (dicts preserve insertion order); on a
validation error no record is created. -/
def generate_video (store : List VideoGeneration) (raw : RawRequestBody)
    (newId : String) (now : Nat) : List VideoGeneration × Option VideoGeneration :=
  match parseRequestBody raw with
  | none => (store, none)
  | some req =>
      let g : VideoGeneration :=
        ⟨newId, req.characterImageUrl, req.script, req.duration, req.quality,
          none, Status.pending, now⟩
      (store ++ [g], some g)

/-- The sort key comparison of line 135: `sort(key=..., reverse=True)` on a
stable sort is a stable sort by descending `createdAt`. -/
def byCreatedAtDesc (a b : VideoGeneration) : Bool :=
  decide (b.createdAt ≤ a.createdAt)

def sortedGenerations (store : List VideoGeneration) : List VideoGeneration :=
  store.mergeSort byCreatedAtDesc

/-- `get_generations` (lines 131-136): sort all stored jobs by `createdAt`
descending (stably) and return the first 10. -/
def get_generations (store : List VideoGeneration) : List VideoGeneration :=
  (sortedGenerations store).take 10

/-- Concrete job used to instantiate theorems with hypotheses. -/
def jobA : VideoGeneration :=
  ⟨"j1", "/uploads/a.png", "hi", 5, "768", none, Status.pending, 0⟩

/-- Environment with no Hugging Face token and working file writes. -/
def envMock : Env := ⟨false, fun _ => true, fun _ => AttemptResult.networkError, true⟩

/-- Environment with no Hugging Face token where the file write fails. -/
def envMockFail : Env := ⟨false, fun _ => true, fun _ => AttemptResult.networkError, false⟩

/-- Environment whose endpoint answers 503 (with a JSON body carrying no
`estimated_time`) on every attempt. -/
def env503 : Env :=
  ⟨true, fun _ => true,
    fun _ => AttemptResult.response ⟨503, "application/json", [], some ⟨none⟩⟩, true⟩

/-- Environment whose endpoint answers 503 twice (unparseable body), then
200 with a 2000-byte video body. -/
def env503Twice : Env :=
  ⟨true, fun _ => true,
    fun i =>
      if i < 2 then AttemptResult.response ⟨503, "application/json", [], none⟩
      else AttemptResult.response ⟨200, "video/mp4", List.replicate 2000 7, none⟩, true⟩

/-- Environment whose endpoint answers 200 with `text/plain`, an unparseable
body of exactly 1000 bytes. -/
def envPlain1000 : Env :=
  ⟨true, fun _ => true,
    fun _ => AttemptResult.response ⟨200, "text/plain", List.replicate 1000 7, none⟩, true⟩

/-! ### Helper lemmas -/

/-- Unfolding equation for one iteration of the retry loop. -/
lemma fetchLoop_succ_eq (env : Env) (remaining idx : Nat) (delay : ℚ) (made : Nat)
    (sleeps : List ℚ) :
    fetchLoop env (remaining + 1) idx delay made sleeps =
      match env.attempts idx with
      | AttemptResult.networkError =>
          if 0 < remaining then
            fetchLoop env remaining (idx + 1) (delay * 1.5) (made + 1) (sleeps ++ [delay])
          else
            ⟨made + 1, sleeps, Except.error FetchError.networkExhausted⟩
      | AttemptResult.response r =>
          if r.statusCode = 503 ∧ 0 < remaining then
            fetchLoop env remaining (idx + 1) (delay * 1.5) (made + 1)
              (sleeps ++ [loadingSleep r.json delay])
          else
            let sleeps1 :=
              if r.statusCode = 503 then sleeps ++ [loadingSleep r.json delay] else sleeps
            if r.statusCode ≠ 200 then
              ⟨made + 1, sleeps1, Except.error (FetchError.apiError r.statusCode)⟩
            else if contentTypeIsVideo r.contentType = false then
              match r.json with
              | some _ => ⟨made + 1, sleeps1, Except.error FetchError.nonVideoJson⟩
              | none =>
                  if r.content.length < 1000 then
                    ⟨made + 1, sleeps1, Except.error (FetchError.truncated r.content.length)⟩
                  else
                    ⟨made + 1, sleeps1, Except.ok r.content⟩
            else
              ⟨made + 1, sleeps1, Except.ok r.content⟩ := rfl

/-- Whenever the background run succeeds, the recorded locator is the one
derived from the job id (lines 234, 247 and 272, 300). -/
lemma controllerBody_ok_url (env : Env) (g : VideoGeneration) (url : String) (content : List Nat)
    (h : (controllerBody env g).outcome = Except.ok (url, content)) :
    url = videoUrlFor g.id := by
  rcases htok : env.hfToken with _ | _
  · rcases hw : env.writeOk with _ | _
    · simp [controllerBody, mockRun, htok, hw] at h
    · simp [controllerBody, mockRun, htok, hw] at h
      exact h.1.symm
  · rcases himg : env.fileExists (imagePath g.characterImageUrl) with _ | _
    · simp [controllerBody, htok, himg] at h
    · rcases hout : (fetchVideo env).outcome with e | c
      · simp [controllerBody, htok, himg, hout] at h
      · rcases hw : env.writeOk with _ | _
        · simp [controllerBody, htok, himg, hout, hw] at h
        · by_cases hlen : c.length = 0
          · simp [controllerBody, htok, himg, hout, hw, hlen] at h
          · simp [controllerBody, htok, himg, hout, hw, hlen] at h
            exact h.1.symm

/-- Every run of the background task produces one of exactly two record
traces: pending, processing, completed-with-url, or pending, processing,
failed-without-url. -/
lemma jobTrace_shape (env : Env) (g : VideoGeneration) :
    jobTrace env g =
      [initialView, ⟨Status.processing, none⟩,
        ⟨Status.completed, some (videoUrlFor g.id)⟩] ∨
    jobTrace env g =
      [initialView, ⟨Status.processing, none⟩, ⟨Status.failed, none⟩] := by
  rcases hout : (controllerBody env g).outcome with e | p
  · right
    simp [jobTrace, controllerUpdates, hout, List.scanl, applyUpdate, initialView]
  · left
    obtain ⟨url, content⟩ := p
    have hu := controllerBody_ok_url env g url content hout
    subst hu
    simp [jobTrace, controllerUpdates, hout, List.scanl, applyUpdate, initialView]

/-! ### Claims -/

/-- C1: for every submitted job, the status field progresses only along
pending → processing → (completed or failed): the controller sets
processing before any other work, each job reaches at most one terminal
state, and once the status is terminal no operation changes it again — the
trace of observable record states is exactly pending, processing, terminal,
with every adjacent pair an allowed transition and the terminal state last. -/
theorem claim_C1_status_lifecycle (env : Env) (g : VideoGeneration) :
    List.Chain' (fun a b => allowedTransition a.status b.status = true) (jobTrace env g) ∧
    ∃ t : JobView, jobTrace env g = [initialView, ⟨Status.processing, none⟩, t] ∧
      isTerminal t.status = true := by
  rcases jobTrace_shape env g with h | h <;> rw [h]
  · exact ⟨by simp [List.chain'_cons, allowedTransition, initialView], _, rfl, rfl⟩
  · exact ⟨by simp [List.chain'_cons, allowedTransition, initialView], _, rfl, rfl⟩

/-- C2: at every observable point of a job's lifecycle, `videoUrl` is set
if and only if the status is completed. -/
theorem claim_C2_videoUrl_iff_completed (env : Env) (g : VideoGeneration)
    (v : JobView) (hv : v ∈ jobTrace env g) :
    v.videoUrl ≠ none ↔ v.status = Status.completed := by
  rcases jobTrace_shape env g with h | h <;> rw [h] at hv <;>
    simp only [List.mem_cons, List.not_mem_nil, or_false] at hv <;>
    rcases hv with rfl | rfl | rfl <;> simp [initialView]

theorem claim_C2_witness :
    (initialView ∈ jobTrace envMock jobA) ∧
      (initialView.videoUrl ≠ none ↔ initialView.status = Status.completed) :=
  ⟨by decide, claim_C2_videoUrl_iff_completed envMock jobA initialView (by decide)⟩

/-- C3: every exception raised inside the background run is caught by the
outer handler, which sets the job's status to failed; nothing propagates to
the scheduler (the run is a total function whose every error outcome yields
the failed trace). -/
theorem claim_C3_errors_terminalize (env : Env) (g : VideoGeneration) (e : CtrlError)
    (h : (controllerBody env g).outcome = Except.error e) :
    jobTrace env g = [initialView, ⟨Status.processing, none⟩, ⟨Status.failed, none⟩] := by
  simp [jobTrace, controllerUpdates, h, List.scanl, applyUpdate, initialView]

theorem claim_C3_witness :
    (controllerBody envMockFail jobA).outcome = Except.error CtrlError.mockWriteFailed ∧
      jobTrace envMockFail jobA =
        [initialView, ⟨Status.processing, none⟩, ⟨Status.failed, none⟩] :=
  ⟨rfl, claim_C3_errors_terminalize envMockFail jobA CtrlError.mockWriteFailed rfl⟩

/-- C4: if the endpoint responds 503 on every attempt, the controller makes
exactly 3 request attempts (the shared `max_retries` budget) and the job's
status becomes failed. -/
theorem claim_C4_all_503_fails (env : Env) (g : VideoGeneration)
    (htok : env.hfToken = true)
    (himg : env.fileExists (imagePath g.characterImageUrl) = true)
    (h503 : ∀ i, i < maxRetries →
      ∃ r, env.attempts i = AttemptResult.response r ∧ r.statusCode = 503) :
    (controllerBody env g).attemptsMade = 3 ∧
      (controllerBody env g).outcome =
        Except.error (CtrlError.fetchFailed (FetchError.apiError 503)) ∧
      jobTrace env g = [initialView, ⟨Status.processing, none⟩, ⟨Status.failed, none⟩] := by
  obtain ⟨r0, h0, h0s⟩ := h503 0 (by decide)
  obtain ⟨r1, h1, h1s⟩ := h503 1 (by decide)
  obtain ⟨r2, h2, h2s⟩ := h503 2 (by decide)
  have hf : (fetchVideo env).attemptsMade = 3 ∧
      (fetchVideo env).outcome = Except.error (FetchError.apiError 503) := by
    have h30 : fetchVideo env =
        fetchLoop env 2 1 (initialRetryDelay * 1.5) 1
          [loadingSleep r0.json initialRetryDelay] := by
      unfold fetchVideo maxRetries
      rw [fetchLoop_succ_eq env 2 0 initialRetryDelay 0 [], h0]
      simp [h0s]
    rw [h30, fetchLoop_succ_eq env 1 1 _ 1 _, h1]
    simp only [h1s, Nat.zero_lt_one, and_true, reduceIte]
    rw [fetchLoop_succ_eq env 0 2 _ 2 _, h2]
    simp [h2s]
  have hcb : (controllerBody env g).attemptsMade = (fetchVideo env).attemptsMade ∧
      (controllerBody env g).outcome =
        Except.error (CtrlError.fetchFailed (FetchError.apiError 503)) := by
    simp [controllerBody, htok, himg, hf.2]
  refine ⟨hcb.1.trans hf.1, hcb.2, ?_⟩
  simp [jobTrace, controllerUpdates, hcb.2, List.scanl, applyUpdate, initialView]

theorem claim_C4_witness :
    env503.hfToken = true ∧
      env503.fileExists (imagePath jobA.characterImageUrl) = true ∧
      (∀ i, i < maxRetries →
        ∃ r, env503.attempts i = AttemptResult.response r ∧ r.statusCode = 503) ∧
      ((controllerBody env503 jobA).attemptsMade = 3 ∧
        (controllerBody env503 jobA).outcome =
          Except.error (CtrlError.fetchFailed (FetchError.apiError 503)) ∧
        jobTrace env503 jobA =
          [initialView, ⟨Status.processing, none⟩, ⟨Status.failed, none⟩]) :=
  ⟨rfl, rfl, fun _ _ => ⟨_, rfl, rfl⟩,
    claim_C4_all_503_fails env503 jobA rfl rfl (fun _ _ => ⟨_, rfl, rfl⟩)⟩

/-- C5: if the endpoint responds 503 twice with no `estimated_time` in the
payload and then 200 with valid video content, the controller makes exactly
3 attempts, sleeps 20 then 30 time units (the default backoff scaled by
1.5), and the job completes. -/
theorem claim_C5_503_twice_then_ok (env : Env) (g : VideoGeneration)
    (r0 r1 r2 : HttpResponse)
    (htok : env.hfToken = true)
    (himg : env.fileExists (imagePath g.characterImageUrl) = true)
    (hw : env.writeOk = true)
    (h0 : env.attempts 0 = AttemptResult.response r0) (h0s : r0.statusCode = 503)
    (h0j : r0.json = none ∨ r0.json = some ⟨none⟩)
    (h1 : env.attempts 1 = AttemptResult.response r1) (h1s : r1.statusCode = 503)
    (h1j : r1.json = none ∨ r1.json = some ⟨none⟩)
    (h2 : env.attempts 2 = AttemptResult.response r2) (h2s : r2.statusCode = 200)
    (h2ct : strStartsWith r2.contentType "video/" = true)
    (h2c : r2.content ≠ []) :
    (controllerBody env g).attemptsMade = 3 ∧
      (controllerBody env g).sleeps = [20, 30] ∧
      (controllerBody env g).outcome = Except.ok (videoUrlFor g.id, r2.content) ∧
      jobTrace env g =
        [initialView, ⟨Status.processing, none⟩,
          ⟨Status.completed, some (videoUrlFor g.id)⟩] := by
  have hs0 : loadingSleep r0.json initialRetryDelay = 20 := by
    rcases h0j with hj | hj <;> simp [loadingSleep, hj, initialRetryDelay]
  have hs1 : loadingSleep r1.json (initialRetryDelay * 1.5) = 30 := by
    rcases h1j with hj | hj <;> simp [loadingSleep, hj, initialRetryDelay] <;> norm_num
  have hctv : contentTypeIsVideo r2.contentType = true := by
    simp [contentTypeIsVideo, h2ct]
  have hf : fetchVideo env = ⟨3, [20, 30], Except.ok r2.content⟩ := by
    have h30 : fetchVideo env =
        fetchLoop env 2 1 (initialRetryDelay * 1.5) 1
          [loadingSleep r0.json initialRetryDelay] := by
      unfold fetchVideo maxRetries
      rw [fetchLoop_succ_eq env 2 0 initialRetryDelay 0 [], h0]
      simp [h0s]
    rw [h30, hs0, fetchLoop_succ_eq env 1 1 _ 1 _, h1]
    simp only [h1s, Nat.zero_lt_one, and_true, reduceIte, hs1]
    rw [fetchLoop_succ_eq env 0 2 _ 2 _, h2]
    simp [h2s, hctv]
  have hcb : controllerBody env g = ⟨3, [20, 30], Except.ok (videoUrlFor g.id, r2.content)⟩ := by
    simp [controllerBody, htok, himg, hf, hw, h2c]
  refine ⟨by rw [hcb], by rw [hcb], by rw [hcb], ?_⟩
  have hout : (controllerBody env g).outcome = Except.ok (videoUrlFor g.id, r2.content) := by
    rw [hcb]
  simp [jobTrace, controllerUpdates, hout, List.scanl, applyUpdate, initialView]

theorem claim_C5_witness :
    env503Twice.attempts 0 =
        AttemptResult.response ⟨503, "application/json", [], none⟩ ∧
      env503Twice.attempts 2 =
        AttemptResult.response ⟨200, "video/mp4", List.replicate 2000 7, none⟩ ∧
      ((controllerBody env503Twice jobA).attemptsMade = 3 ∧
        (controllerBody env503Twice jobA).sleeps = [20, 30] ∧
        (controllerBody env503Twice jobA).outcome =
          Except.ok (videoUrlFor jobA.id, List.replicate 2000 7) ∧
        jobTrace env503Twice jobA =
          [initialView, ⟨Status.processing, none⟩,
            ⟨Status.completed, some (videoUrlFor jobA.id)⟩]) :=
  ⟨rfl, rfl,
    claim_C5_503_twice_then_ok env503Twice jobA
      ⟨503, "application/json", [], none⟩ ⟨503, "application/json", [], none⟩
      ⟨200, "video/mp4", List.replicate 2000 7, none⟩
      rfl rfl rfl rfl rfl (Or.inl rfl) rfl rfl (Or.inl rfl) rfl rfl (by decide)
      (by
        intro h
        have h2 := congrArg List.length h
        rw [List.length_replicate] at h2
        exact absurd h2 (by decide))⟩

/-- C6: on a 200 response whose content type is neither video nor
octet-stream and whose body does not parse as JSON, a body shorter than
1000 bytes fails the fetch with the truncated-response error and the job
fails, while a body of 1000 bytes or more is accepted as video content and
the job completes. -/
theorem claim_C6_non_video_threshold (env : Env) (g : VideoGeneration) (r : HttpResponse)
    (htok : env.hfToken = true)
    (himg : env.fileExists (imagePath g.characterImageUrl) = true)
    (hw : env.writeOk = true)
    (h0 : env.attempts 0 = AttemptResult.response r)
    (hs : r.statusCode = 200)
    (hct : contentTypeIsVideo r.contentType = false)
    (hj : r.json = none) :
    (r.content.length < 1000 →
      (controllerBody env g).outcome =
          Except.error (CtrlError.fetchFailed (FetchError.truncated r.content.length)) ∧
        jobTrace env g =
          [initialView, ⟨Status.processing, none⟩, ⟨Status.failed, none⟩]) ∧
    (1000 ≤ r.content.length →
      (controllerBody env g).outcome = Except.ok (videoUrlFor g.id, r.content) ∧
        jobTrace env g =
          [initialView, ⟨Status.processing, none⟩,
            ⟨Status.completed, some (videoUrlFor g.id)⟩]) := by
  constructor
  · intro hlt
    have hf : fetchVideo env =
        ⟨1, [], Except.error (FetchError.truncated r.content.length)⟩ := by
      unfold fetchVideo maxRetries
      rw [fetchLoop_succ_eq env 2 0 initialRetryDelay 0 [], h0]
      simp [hs, hct, hj, hlt]
    have hout : (controllerBody env g).outcome =
        Except.error (CtrlError.fetchFailed (FetchError.truncated r.content.length)) := by
      simp [controllerBody, htok, himg, hf]
    exact ⟨hout,
      by simp [jobTrace, controllerUpdates, hout, List.scanl, applyUpdate, initialView]⟩
  · intro hge
    have hlt : ¬ r.content.length < 1000 := by omega
    have hlen : r.content.length ≠ 0 := by omega
    have hf : fetchVideo env = ⟨1, [], Except.ok r.content⟩ := by
      unfold fetchVideo maxRetries
      rw [fetchLoop_succ_eq env 2 0 initialRetryDelay 0 [], h0]
      simp [hs, hct, hj, hlt]
    have hout : (controllerBody env g).outcome = Except.ok (videoUrlFor g.id, r.content) := by
      simp [controllerBody, htok, himg, hf, hw, hlen]
    exact ⟨hout,
      by simp [jobTrace, controllerUpdates, hout, List.scanl, applyUpdate, initialView]⟩

theorem claim_C6_witness :
    envPlain1000.attempts 0 =
        AttemptResult.response ⟨200, "text/plain", List.replicate 1000 7, none⟩ ∧
      1000 ≤ (List.replicate 1000 (7 : Nat)).length ∧
      ((controllerBody envPlain1000 jobA).outcome =
          Except.ok (videoUrlFor jobA.id, List.replicate 1000 7) ∧
        jobTrace envPlain1000 jobA =
          [initialView, ⟨Status.processing, none⟩,
            ⟨Status.completed, some (videoUrlFor jobA.id)⟩]) :=
  ⟨rfl, (List.length_replicate 1000 7).ge,
    (claim_C6_non_video_threshold envPlain1000 jobA
        ⟨200, "text/plain", List.replicate 1000 7, none⟩
        rfl rfl rfl rfl rfl (by decide) rfl).2 ((List.length_replicate 1000 7).ge)⟩

/-- C7: with no credential configured, a job completes with the non-empty,
fixed placeholder artifact — the same byte sequence for every job — and no
request to the external endpoint is made. -/
theorem claim_C7_mock_generation (env : Env) (g : VideoGeneration)
    (htok : env.hfToken = false) (hw : env.writeOk = true) :
    (controllerBody env g).attemptsMade = 0 ∧
      (controllerBody env g).outcome = Except.ok (videoUrlFor g.id, mp4Data) ∧
      mp4Data ≠ [] ∧
      jobTrace env g =
        [initialView, ⟨Status.processing, none⟩,
          ⟨Status.completed, some (videoUrlFor g.id)⟩] := by
  have hcb : controllerBody env g = ⟨0, [10], Except.ok (videoUrlFor g.id, mp4Data)⟩ := by
    simp [controllerBody, mockRun, htok, hw]
  have hout : (controllerBody env g).outcome = Except.ok (videoUrlFor g.id, mp4Data) := by
    rw [hcb]
  refine ⟨by rw [hcb], hout, by simp [mp4Data], ?_⟩
  simp [jobTrace, controllerUpdates, hout, List.scanl, applyUpdate, initialView]

theorem claim_C7_witness :
    envMock.hfToken = false ∧ envMock.writeOk = true ∧
      ((controllerBody envMock jobA).attemptsMade = 0 ∧
        (controllerBody envMock jobA).outcome =
          Except.ok (videoUrlFor jobA.id, mp4Data) ∧
        mp4Data ≠ [] ∧
        jobTrace envMock jobA =
          [initialView, ⟨Status.processing, none⟩,
            ⟨Status.completed, some (videoUrlFor jobA.id)⟩]) :=
  ⟨rfl, rfl, claim_C7_mock_generation envMock jobA rfl rfl⟩

/-- The descending comparison is transitive. -/
lemma byCreatedAtDesc_trans :
    ∀ a b c : VideoGeneration,
      byCreatedAtDesc a b → byCreatedAtDesc b c → byCreatedAtDesc a c := by
  intro a b c hab hbc
  simp only [byCreatedAtDesc, decide_eq_true_eq] at *
  omega

/-- The descending comparison is total. -/
lemma byCreatedAtDesc_total :
    ∀ a b : VideoGeneration, byCreatedAtDesc a b || byCreatedAtDesc b a := by
  intro a b
  simp only [byCreatedAtDesc, Bool.or_eq_true, decide_eq_true_eq]
  omega

/-- C8: the frame-count parameter sent to the remote endpoint equals
min(duration * 8, 25), with 8 the frames-per-second assumption and 25 the
maximum frame count. -/
theorem claim_C8_frame_count (g : VideoGeneration) :
    (requestParameters g).num_frames =
      min (g.duration * framesPerSecondAssumption) maxFrames := rfl

/-- C9: the list operation returns at most 10 jobs, sorted by `createdAt`
descending, and jobs with equal `createdAt` keep their insertion order (the
sorted list filtered to any fixed `createdAt` value equals the store
filtered to that value, and the result is a prefix of the sorted list). -/
theorem claim_C9_list_endpoint (store : List VideoGeneration) :
    (get_generations store).length ≤ 10 ∧
    List.Pairwise (fun a b => b.createdAt ≤ a.createdAt) (get_generations store) ∧
    (∀ c : Nat,
      (sortedGenerations store).filter (fun g => g.createdAt == c) =
        store.filter (fun g => g.createdAt == c)) ∧
    get_generations store = (sortedGenerations store).take 10 := by
  refine ⟨?_, ?_, ?_, rfl⟩
  · exact List.length_take_le 10 _
  · have hsorted : (sortedGenerations store).Pairwise (fun a b => byCreatedAtDesc a b = true) :=
      List.sorted_mergeSort byCreatedAtDesc_trans byCreatedAtDesc_total store
    have htake : (get_generations store).Pairwise (fun a b => byCreatedAtDesc a b = true) :=
      List.Pairwise.sublist (List.take_sublist 10 _) hsorted
    exact htake.imp (fun h => by simpa [byCreatedAtDesc] using h)
  · intro c
    have hall : ∀ a ∈ store.filter (fun g => g.createdAt == c), a.createdAt == c :=
      fun a ha => (List.mem_filter.1 ha).2
    have hpw : (store.filter (fun g => g.createdAt == c)).Pairwise
        (fun a b => byCreatedAtDesc a b = true) := by
      apply List.pairwise_of_forall_mem_list
      intro a ha b hb
      have hac : a.createdAt = c := by simpa using hall a ha
      have hbc : b.createdAt = c := by
        simpa using (List.mem_filter.1 hb).2
      simp [byCreatedAtDesc, hac, hbc]
    have h1 : List.Sublist (store.filter (fun g => g.createdAt == c))
        (sortedGenerations store) :=
      List.sublist_mergeSort byCreatedAtDesc_trans byCreatedAtDesc_total hpw
        (List.filter_sublist store)
    have h2 := h1.filter (fun g => g.createdAt == c)
    rw [List.filter_eq_self.mpr hall] at h2
    have hperm : List.Perm ((sortedGenerations store).filter (fun g => g.createdAt == c))
        (store.filter (fun g => g.createdAt == c)) :=
      (List.mergeSort_perm store byCreatedAtDesc).filter _
    exact (h2.eq_of_length hperm.length_eq.symm).symm

/-- Request body with both optional fields omitted. -/
def rawW : RawRequestBody := ⟨some "/uploads/a.png", some "s", none, none⟩

/-- Request body missing the required `script` field. -/
def rawNoScript : RawRequestBody := ⟨some "/uploads/a.png", none, some 9, some "512"⟩

/-- C10: a body that omits `duration` or `quality` yields a job record with
the defaults duration = 5 and quality = "768"; a body missing a required
field (`characterImageUrl` or `script`) creates no job. -/
theorem claim_C10_request_defaults (store : List VideoGeneration) (raw : RawRequestBody)
    (newId : String) (now : Nat) :
    (∀ url s, raw.characterImageUrl = some url → raw.script = some s →
      generate_video store raw newId now =
        (store ++
            [⟨newId, url, s, raw.duration.getD 5, raw.quality.getD "768",
              none, Status.pending, now⟩],
          some ⟨newId, url, s, raw.duration.getD 5, raw.quality.getD "768",
              none, Status.pending, now⟩)) ∧
    ((raw.characterImageUrl = none ∨ raw.script = none) →
      generate_video store raw newId now = (store, none)) := by
  constructor
  · intro url s hu hs
    simp [generate_video, parseRequestBody, hu, hs]
  · rintro (h | h)
    · simp [generate_video, parseRequestBody, h]
    · rcases hcu : raw.characterImageUrl with _ | u <;>
        simp [generate_video, parseRequestBody, h, hcu]

theorem claim_C10_witness :
    rawW.characterImageUrl = some "/uploads/a.png" ∧
      rawW.script = some "s" ∧
      (rawNoScript.characterImageUrl = none ∨ rawNoScript.script = none) ∧
      generate_video [] rawW "id1" 0 =
        ([] ++ [⟨"id1", "/uploads/a.png", "s", 5, "768", none, Status.pending, 0⟩],
          some ⟨"id1", "/uploads/a.png", "s", 5, "768", none, Status.pending, 0⟩) ∧
      generate_video [] rawNoScript "id1" 0 = ([], none) :=
  ⟨rfl, rfl, Or.inr rfl,
    (claim_C10_request_defaults [] rawW "id1" 0).1 "/uploads/a.png" "s" rfl rfl,
    (claim_C10_request_defaults [] rawNoScript "id1" 0).2 (Or.inr rfl)⟩

end Vidooo
